import Mathlib

set_option autoImplicit false

/-!
Verification of the GameSecurity risk-scoring and attack-resolution engine.

The definitions below are a shallow embedding of the server-side engine in
src/server/routes.ts together with the state shape declared by the shared
zod schema.  JavaScript numbers are modelled by Nat/Int (all arithmetic in
the engine is small-integer arithmetic), optional-chained configuration
records by Option-valued fields, and the record of cooldown timestamps by
an association list.  Nondeterministic inputs of the handlers (UUIDs, the
wall clock, the random roll) are passed as explicit parameters.
-/

namespace GameSecurity

/-- Entry of trustedDevices configuration (shared schema). -/
structure TrustedDevice where
  id : String
  name : String
  fingerprint : String
  addedAt : Nat
deriving Repr, DecidableEq

/-- smsBackup configuration (shared schema). -/
structure SmsBackupConfig where
  phoneNumber : Option String
  verified : Bool
deriving Repr, DecidableEq

/-- trustedDevices configuration (shared schema). -/
structure TrustedDevicesConfig where
  devices : List TrustedDevice
deriving Repr, DecidableEq

/-- loginAlerts configuration (shared schema). -/
structure LoginAlertsConfig where
  emailAlerts : Bool
  smsAlerts : Bool
  newLocationAlerts : Bool
deriving Repr, DecidableEq

/-- ipWhitelist configuration (shared schema). -/
structure IpWhitelistConfig where
  enabled : Bool
  allowedIPs : List String
deriving Repr, DecidableEq

/-- recoveryEmail configuration (shared schema). -/
structure RecoveryEmailConfig where
  email : Option String
  verified : Bool
deriving Repr, DecidableEq

/-- The per-measure securityConfig payloads the engine reads
(fields of securityConfigSchema that the engine functions consult;
an absent field of the zod object is None). -/
structure SecurityConfig where
  recoveryEmail : Option RecoveryEmailConfig := none
  smsBackup : Option SmsBackupConfig := none
  trustedDevices : Option TrustedDevicesConfig := none
  loginAlerts : Option LoginAlertsConfig := none
  ipWhitelist : Option IpWhitelistConfig := none
deriving Repr, DecidableEq

/-- The fixed mapping of 12 boolean security-measure flags. -/
structure SecurityMeasures where
  twoFactorAuth : Bool := false
  strongPassword : Bool := false
  emailVerification : Bool := false
  securityQuestions : Bool := false
  backupEmail : Bool := false
  authenticatorApp : Bool := false
  smsBackup : Bool := false
  trustedDevices : Bool := false
  loginAlerts : Bool := false
  sessionManagement : Bool := false
  ipWhitelist : Bool := false
  passwordVault : Bool := false
deriving Repr, DecidableEq

/-- Identifier of a security measure (updateSecuritySchema measure enum). -/
inductive MeasureId where
  | twoFactorAuth | strongPassword | emailVerification | securityQuestions
  | backupEmail | authenticatorApp | smsBackup | trustedDevices
  | loginAlerts | sessionManagement | ipWhitelist | passwordVault
deriving Repr, DecidableEq

/-- A password-vault entry (passwordVaultEntrySchema). -/
structure VaultEntry where
  id : String
  title : String
  website : Option String := none
  username : Option String := none
  password : String
  createdAt : Nat
  category : Option String := none
deriving Repr, DecidableEq

/-- Notification type enum of the shared schema. -/
inductive NotifType where
  | phishing | social_engineering | password_reset | suspicious_login
  | security_alert | twofa_confirm | email_verify_confirm | weak_password_warning
deriving Repr, DecidableEq

/-- ctaType enum of the shared schema. -/
inductive CtaType where
  | phishing_learn_more | confirm_2fa | confirm_email | confirm_email_verification
deriving Repr, DecidableEq

/-- A notification (shared schema). -/
structure Notification where
  id : String
  ntype : NotifType
  title : String
  message : String
  isActive : Bool := true
  requiresAction : Bool := false
  userFellFor : Option Bool := none
  ctaLabel : Option String := none
  ctaType : Option CtaType := none
  scenarioIndex : Option Nat := none
  passwordStrength : Option Nat := none
deriving Repr, DecidableEq

/-- Actor of an activity-log entry. -/
inductive Actor where
  | user | hacker | system
deriving Repr, DecidableEq

/-- An activity-log entry. -/
structure ActivityLogEntry where
  id : String
  timestamp : Nat
  actor : Actor
  action : String
  detail : Option String := none
deriving Repr, DecidableEq

/-- The casualUser part of the game state (fields the engine reads). -/
structure CasualUser where
  password : Option String := none
  securityMeasures : SecurityMeasures := {}
  securityConfig : SecurityConfig := {}
  passwordVault : List VaultEntry := []
  accountCompromised : Bool := false
deriving Repr, DecidableEq

/-- The hacker part of the game state (fields the engine reads). -/
structure Hacker where
  attacksAttempted : Nat := 0
  attacksSuccessful : Nat := 0
  cooldowns : List (String × Nat) := []
  socialEngineeringScenarioCursor : Nat := 0
deriving Repr, DecidableEq

/-- The full game state snapshot. -/
structure GameState where
  casualUser : CasualUser := {}
  hacker : Hacker := {}
  notifications : List Notification := []
  vulnerabilityScore : Int := 100
  activityLog : List ActivityLogEntry := []
deriving Repr, DecidableEq

/-- The default (freshly created / reset) game state, per the zod schema
defaults. -/
def initialGameState : GameState := {}

/-! ## Optional-chaining helpers (JS `config.x?.y` reads) -/

/-- `config.smsBackup?.verified`. -/
def smsVerified (c : SecurityConfig) : Bool :=
  match c.smsBackup with
  | some s => s.verified
  | none => false

/-- `config.trustedDevices?.devices?.length`, 0 when absent. -/
def trustedDeviceCount (c : SecurityConfig) : Nat :=
  match c.trustedDevices with
  | some t => t.devices.length
  | none => 0

/-- `config.loginAlerts?.emailAlerts`. -/
def loginEmailAlerts (c : SecurityConfig) : Bool :=
  match c.loginAlerts with
  | some l => l.emailAlerts
  | none => false

/-- `config.loginAlerts?.smsAlerts`. -/
def loginSmsAlerts (c : SecurityConfig) : Bool :=
  match c.loginAlerts with
  | some l => l.smsAlerts
  | none => false

/-- `config.ipWhitelist?.enabled`. -/
def ipWhitelistEnabled (c : SecurityConfig) : Bool :=
  match c.ipWhitelist with
  | some i => i.enabled
  | none => false

/-- `config.ipWhitelist?.allowedIPs?.length`, 0 when absent. -/
def allowedIPCount (c : SecurityConfig) : Nat :=
  match c.ipWhitelist with
  | some i => i.allowedIPs.length
  | none => 0

/-! ## calculateVulnerability (routes.ts) -/

/-- The accumulated totalReduction of calculateVulnerability. -/
def totalReduction (gs : GameState) : Nat :=
  let measures := gs.casualUser.securityMeasures
  let config := gs.casualUser.securityConfig
  (if measures.strongPassword then 10 else 0) +
  (if measures.twoFactorAuth then 15 else 0) +
  (if measures.emailVerification then 10 else 0) +
  (if measures.securityQuestions then 10 else 0) +
  (if measures.backupEmail then 5 else 0) +
  (if measures.authenticatorApp then 20 else 0) +
  (if measures.smsBackup && smsVerified config then 12 else 0) +
  (if measures.trustedDevices && trustedDeviceCount config > 0 then 15 else 0) +
  (if measures.loginAlerts && (loginEmailAlerts config || loginSmsAlerts config) then 10 else 0) +
  (if measures.sessionManagement then 12 else 0) +
  (if measures.ipWhitelist && ipWhitelistEnabled config && allowedIPCount config > 0 then 18 else 0) +
  (if measures.passwordVault && gs.casualUser.passwordVault.length ≥ 3 then 8 else 0)

/-- calculateVulnerability: 100 minus the total reduction, clamped to [0,100]. -/
def calculateVulnerability (gs : GameState) : Int :=
  max 0 (min 100 (100 - (totalReduction gs : Int)))

/-! ## calculatePasswordStrength (routes.ts) -/

/-- JS regex test `/[a-z]/`. -/
def hasLowercase (password : String) : Bool :=
  password.data.any fun c => 'a' ≤ c && c ≤ 'z'

/-- JS regex test `/[A-Z]/`. -/
def hasUppercase (password : String) : Bool :=
  password.data.any fun c => 'A' ≤ c && c ≤ 'Z'

/-- JS regex test `/[0-9]/`. -/
def hasNumber (password : String) : Bool :=
  password.data.any fun c => '0' ≤ c && c ≤ '9'

/-- JS regex test for a character outside `[a-zA-Z0-9]`. -/
def hasSpecial (password : String) : Bool :=
  password.data.any fun c =>
    !(('a' ≤ c && c ≤ 'z') || ('A' ≤ c && c ≤ 'Z') || ('0' ≤ c && c ≤ '9'))

/-- calculatePasswordStrength, translated statement by statement. -/
def calculatePasswordStrength (password : String) : Nat :=
  let strength :=
    (if password.length ≥ 8 then 20 else 0) +
    (if password.length ≥ 12 then 20 else 0) +
    (if hasLowercase password then 20 else 0) +
    (if hasUppercase password then 20 else 0) +
    (if hasNumber password then 10 else 0) +
    (if hasSpecial password then 10 else 0)
  let hasAllRequirements :=
    hasLowercase password && hasUppercase password &&
    hasNumber password && hasSpecial password
  let strength := if !hasAllRequirements && strength ≥ 80 then 79 else strength
  min strength 100

/-! ## getAttackSuccessChance (routes.ts) -/

/-- The allMeasuresActive conjunction of getAttackSuccessChance. -/
def allMeasuresActive (gs : GameState) : Bool :=
  let measures := gs.casualUser.securityMeasures
  measures.twoFactorAuth &&
  measures.strongPassword &&
  measures.emailVerification &&
  measures.securityQuestions &&
  measures.backupEmail &&
  measures.authenticatorApp &&
  measures.smsBackup &&
  measures.trustedDevices &&
  measures.loginAlerts &&
  measures.sessionManagement &&
  measures.ipWhitelist &&
  measures.passwordVault

/-- The allConfigurationsValid conjunction of getAttackSuccessChance. -/
def allConfigurationsValid (gs : GameState) : Bool :=
  let config := gs.casualUser.securityConfig
  let passwordStrength := calculatePasswordStrength (gs.casualUser.password.getD "")
  decide (passwordStrength ≥ 80) &&
  ipWhitelistEnabled config &&
  decide (allowedIPCount config > 0) &&
  decide (trustedDeviceCount config > 0) &&
  (loginEmailAlerts config || loginSmsAlerts config) &&
  smsVerified config &&
  decide (gs.casualUser.passwordVault.length ≥ 3)

/-- getAttackSuccessChance, translated case by case from the switch. -/
def getAttackSuccessChance (attackId : String) (gs : GameState) : Int :=
  let measures := gs.casualUser.securityMeasures
  let config := gs.casualUser.securityConfig
  let passwordStrength := calculatePasswordStrength (gs.casualUser.password.getD "")
  if allMeasuresActive gs && allConfigurationsValid gs then 0
  else
    let baseChance : Int :=
      if attackId == "brute_force" then
        80 - (if measures.authenticatorApp then 70 else 0)
           - (if measures.twoFactorAuth then 60 else 0)
           - (if measures.strongPassword || passwordStrength ≥ 80 then 40 else 0)
           - (if measures.ipWhitelist && ipWhitelistEnabled config then 20 else 0)
           - (if measures.sessionManagement then 15 else 0)
      else if attackId == "phishing" then
        70 - (if measures.authenticatorApp then 40 else 0)
           - (if measures.twoFactorAuth then 30 else 0)
           - (if measures.emailVerification then 25 else 0)
           - (if measures.loginAlerts && loginEmailAlerts config then 20 else 0)
           - (if measures.trustedDevices && trustedDeviceCount config > 0 then 15 else 0)
      else if attackId == "social_engineering" then
        65 - (if measures.twoFactorAuth then 25 else 0)
           - (if measures.securityQuestions then 20 else 0)
           - (if measures.loginAlerts && (loginEmailAlerts config || loginSmsAlerts config) then 20 else 0)
      else if attackId == "keylogger" then
        60 - (if measures.authenticatorApp then 30 else 0)
           - (if measures.twoFactorAuth then 25 else 0)
           - (if measures.sessionManagement then 15 else 0)
      else if attackId == "password_leak" then
        75 - (if measures.authenticatorApp then 50 else 0)
           - (if measures.twoFactorAuth then 40 else 0)
           - (if measures.strongPassword then 20 else 0)
           - (if measures.smsBackup && smsVerified config then 15 else 0)
      else if attackId == "session_hijacking" then
        50 - (if measures.loginAlerts && (loginEmailAlerts config || loginSmsAlerts config) then 25 else 0)
           - (if measures.sessionManagement then 20 else 0)
           - (if measures.trustedDevices && trustedDeviceCount config > 0 then 15 else 0)
           - (if measures.authenticatorApp then 10 else 0)
      else if attackId == "man_in_the_middle" then
        50 - (if measures.trustedDevices && trustedDeviceCount config > 0 then 30 else 0)
           - (if measures.authenticatorApp then 20 else 0)
           - (if measures.twoFactorAuth then 10 else 0)
      else if attackId == "credential_stuffing" then
        50 - (if measures.passwordVault && gs.casualUser.passwordVault.length ≥ 3 then 25 else 0)
           - (if measures.authenticatorApp then 15 else 0)
           - (if measures.twoFactorAuth then 10 else 0)
           - (if measures.strongPassword then 5 else 0)
      else if attackId == "sim_swap" then
        50 - (if measures.authenticatorApp then 40 else 0)
           - (if measures.twoFactorAuth then 10 else 0)
      else if attackId == "malware_injection" then
        50 - (if measures.trustedDevices && trustedDeviceCount config > 0 then 30 else 0)
           - (if measures.authenticatorApp then 20 else 0)
           - (if measures.sessionManagement then 15 else 0)
      else if attackId == "dns_spoofing" then
        50 - (if measures.trustedDevices && trustedDeviceCount config > 0 then 25 else 0)
           - (if measures.loginAlerts && (loginEmailAlerts config || loginSmsAlerts config) then 15 else 0)
           - (if measures.authenticatorApp then 10 else 0)
           - (if measures.emailVerification then 5 else 0)
      else if attackId == "zero_day_exploit" then
        50 - (if measures.authenticatorApp then 25 else 0)
           - (if measures.twoFactorAuth then 20 else 0)
           - (if measures.ipWhitelist && ipWhitelistEnabled config && allowedIPCount config > 0 then 10 else 0)
           - (if measures.sessionManagement then 5 else 0)
      else
        50
    max 0 (min 100 baseChance)

/-! ## attackTypes (shared schema) -/

/-- An attack type constant (fields the engine uses: id, display name,
cooldown milliseconds). -/
structure AttackType where
  id : String
  name : String
  cooldown : Nat
deriving Repr, DecidableEq

/-- The closed list of 12 attack type constants. -/
def attackTypes : List AttackType :=
  [ ⟨"social_engineering", "Engenharia Social", 15000⟩,
    ⟨"phishing", "Phishing Email", 20000⟩,
    ⟨"brute_force", "Força Bruta", 30000⟩,
    ⟨"keylogger", "Keylogger", 25000⟩,
    ⟨"password_leak", "Database Leak", 35000⟩,
    ⟨"session_hijacking", "Sequestro de Sessão", 28000⟩,
    ⟨"man_in_the_middle", "Man-in-the-Middle", 32000⟩,
    ⟨"credential_stuffing", "Credential Stuffing", 26000⟩,
    ⟨"sim_swap", "SIM Swap", 40000⟩,
    ⟨"malware_injection", "Injeção de Malware", 33000⟩,
    ⟨"dns_spoofing", "DNS Spoofing", 29000⟩,
    ⟨"zero_day_exploit", "Zero-Day Exploit", 50000⟩ ]

/-! ## Handler building blocks (routes.ts) -/

/-- addActivityLog: appends one entry to the activity log.  The UUID and
timestamp created inside the function are taken as parameters. -/
def addActivityLog (gs : GameState) (actor : Actor) (action : String)
    (detail : Option String) (lid : String) (now : Nat) : GameState :=
  { gs with activityLog := gs.activityLog ++ [⟨lid, now, actor, action, detail⟩] }

/-- createNotification: deterministic template per attack id, with the
phishing template as fallback; the UUID is a parameter. -/
def createNotification (attackId : String) (gs : GameState) (nid : String) : Notification :=
  if attackId == "phishing" then
    { id := nid, ntype := .phishing, title := "Novo Email Recebido",
      message := "Você ganhou um prêmio! Clique aqui para resgatar agora. Confirme seus dados para receber.",
      requiresAction := true, ctaLabel := some "Saber Mais",
      ctaType := some .phishing_learn_more, isActive := true, userFellFor := none }
  else if attackId == "social_engineering" then
    { id := nid, ntype := .social_engineering, title := "Nova Conversa",
      message := "Você tem uma nova mensagem. Clique para visualizar.",
      requiresAction := true,
      scenarioIndex := some gs.hacker.socialEngineeringScenarioCursor,
      isActive := true, userFellFor := none }
  else if attackId == "brute_force" then
    { id := nid, ntype := .security_alert, title := "Alerta de Segurança",
      message := "Múltiplas tentativas de login detectadas. Seu acesso pode estar em risco.",
      requiresAction := false, isActive := true, userFellFor := none }
  else if attackId == "keylogger" then
    { id := nid, ntype := .suspicious_login, title := "Download Automático",
      message := "Um programa está tentando se instalar no seu computador. Permitir?",
      requiresAction := true, isActive := true, userFellFor := none }
  else if attackId == "password_leak" then
    { id := nid, ntype := .security_alert, title := "Vazamento de Dados",
      message := "Sua senha pode ter sido exposta em um vazamento de dados recente. Considere alterá-la.",
      requiresAction := false, isActive := true, userFellFor := none }
  else
    { id := nid, ntype := .phishing, title := "Novo Email Recebido",
      message := "Você ganhou um prêmio! Clique aqui para resgatar agora. Confirme seus dados para receber.",
      requiresAction := true, ctaLabel := some "Saber Mais",
      ctaType := some .phishing_learn_more, isActive := true, userFellFor := none }

/-- Write-through of a record field keyed by a dynamic measure name
(the JS computed-property write measures[measure] = enabled). -/
def setMeasure (m : MeasureId) (enabled : Bool) (s : SecurityMeasures) : SecurityMeasures :=
  match m with
  | .twoFactorAuth => { s with twoFactorAuth := enabled }
  | .strongPassword => { s with strongPassword := enabled }
  | .emailVerification => { s with emailVerification := enabled }
  | .securityQuestions => { s with securityQuestions := enabled }
  | .backupEmail => { s with backupEmail := enabled }
  | .authenticatorApp => { s with authenticatorApp := enabled }
  | .smsBackup => { s with smsBackup := enabled }
  | .trustedDevices => { s with trustedDevices := enabled }
  | .loginAlerts => { s with loginAlerts := enabled }
  | .sessionManagement => { s with sessionManagement := enabled }
  | .ipWhitelist => { s with ipWhitelist := enabled }
  | .passwordVault => { s with passwordVault := enabled }

/-- Portuguese display name of a measure (measureNames of the update route). -/
def measureName (m : MeasureId) : String :=
  match m with
  | .twoFactorAuth => "Autenticação de Dois Fatores"
  | .strongPassword => "Senha Forte"
  | .emailVerification => "Verificação de Email"
  | .securityQuestions => "Perguntas de Segurança"
  | .backupEmail => "Email de Recuperação"
  | .authenticatorApp => "Aplicativo Autenticador"
  | .smsBackup => "Backup por SMS"
  | .trustedDevices => "Dispositivos Confiáveis"
  | .loginAlerts => "Alertas de Login"
  | .sessionManagement => "Gerenciamento de Sessão"
  | .ipWhitelist => "Lista de IPs Permitidos"
  | .passwordVault => "Cofre de Senhas"

/-- Errors distinguished by the handlers (HTTP 400 validation,
404 not-found, 400 cooldown precondition). -/
inductive ApiError where
  | invalidRequest
  | notFound
  | onCooldown
deriving Repr, DecidableEq

/-! ## POST /api/security/update -/

/-- The update-security handler: set the named measure flag, append a user
log entry, recompute the vulnerability score. -/
def updateSecurity (measureId : MeasureId) (enabled : Bool) (lid : String)
    (now : Nat) (gs : GameState) : GameState :=
  let newMeasures := setMeasure measureId enabled gs.casualUser.securityMeasures
  let gs1 := { gs with casualUser :=
    { gs.casualUser with securityMeasures := newMeasures } }
  let gs2 := addActivityLog gs1 .user
    (if enabled then "Proteção ativada" else "Proteção desativada")
    (some (measureName measureId)) lid now
  { gs2 with vulnerabilityScore := calculateVulnerability gs2 }

/-! ## POST /api/attack/execute -/

/-- JS record write cooldowns[attackId] = value. -/
def setCooldown (cds : List (String × Nat)) (attackId : String) (v : Nat) :
    List (String × Nat) :=
  (attackId, v) :: cds.filter (fun p => p.1 ≠ attackId)

/-- The state built by the execute-attack handler past the cooldown check. -/
def executeAttackResult (attack : AttackType) (attackId : String) (now : Nat)
    (roll : Int) (nid lid : String) (gs : GameState) : GameState :=
  let successChance := getAttackSuccessChance attackId gs
  let isSuccessful := roll < successChance
  let notification := createNotification attackId gs nid
  let newCooldowns := setCooldown gs.hacker.cooldowns attackId (now + attack.cooldown)
  let newScenarioCursor :=
    if attackId == "social_engineering" then
      (gs.hacker.socialEngineeringScenarioCursor + 1) % 3
    else gs.hacker.socialEngineeringScenarioCursor
  let gs1 : GameState :=
    { gs with
      hacker :=
        { gs.hacker with
          attacksAttempted := gs.hacker.attacksAttempted + 1,
          attacksSuccessful :=
            if isSuccessful then gs.hacker.attacksSuccessful + 1
            else gs.hacker.attacksSuccessful,
          cooldowns := newCooldowns,
          socialEngineeringScenarioCursor := newScenarioCursor },
      notifications := gs.notifications ++ [notification],
      casualUser :=
        { gs.casualUser with
          accountCompromised := isSuccessful || gs.casualUser.accountCompromised } }
  let gs2 := addActivityLog gs1 .hacker
    ("Ataque executado: " ++ attack.name)
    (some ((if isSuccessful then "Sucesso!" else "Falhou.") ++
      " Chance de sucesso: " ++ toString successChance ++ "%")) lid now
  gs2

/-- The execute-attack handler.  The wall clock now, the random roll
(uniform in [0,100)) and the two generated UUIDs are parameters.
Returns the error the route would surface, or the persisted new state. -/
def executeAttack (attackId : String) (now : Nat) (roll : Int)
    (nid lid : String) (gs : GameState) : Except ApiError GameState :=
  match attackTypes.find? (fun a => a.id == attackId) with
  | none => .error .notFound
  | some attack =>
    match gs.hacker.cooldowns.lookup attackId with
    | some t =>
      if t > now then .error .onCooldown
      else .ok (executeAttackResult attack attackId now roll nid lid gs)
    | none => .ok (executeAttackResult attack attackId now roll nid lid gs)

/-- The state the session store holds after the execute-attack route:
on an error response nothing is persisted. -/
def runExecuteAttack (attackId : String) (now : Nat) (roll : Int)
    (nid lid : String) (gs : GameState) : GameState :=
  match executeAttack attackId now roll nid lid gs with
  | .ok s => s
  | .error _ => gs

/-! ## POST /api/notification/respond -/

/-- The state built by the respond-to-notification handler for the found
notification, mirroring its if/else chain. -/
def respondResult (notification : Notification) (notificationId : String)
    (accepted : Bool) (gs : GameState) : GameState :=
    let updatedNotifications := gs.notifications.map fun n =>
      if n.id == notificationId then
        { n with isActive := false, userFellFor := some accepted }
      else n
    let accountCompromised :=
      if accepted && notification.ntype == .phishing then true
      else if accepted && notification.ntype == .social_engineering then true
      else if accepted && notification.ntype == .suspicious_login then true
      else gs.casualUser.accountCompromised
    let updatedUser :=
      if accepted && notification.ctaType == some .confirm_email then
        match gs.casualUser.securityConfig.recoveryEmail with
        | some recoveryEmail =>
          { gs.casualUser with
            accountCompromised := accountCompromised,
            securityMeasures :=
              { gs.casualUser.securityMeasures with backupEmail := true },
            securityConfig :=
              { gs.casualUser.securityConfig with
                recoveryEmail := some { recoveryEmail with verified := true } } }
        | none => gs.casualUser
      else if accepted && notification.ctaType == some .confirm_2fa then
        { gs.casualUser with
          accountCompromised := accountCompromised,
          securityMeasures :=
            { gs.casualUser.securityMeasures with twoFactorAuth := true } }
      else if accepted && notification.ctaType == some .confirm_email_verification then
        { gs.casualUser with
          accountCompromised := accountCompromised,
          securityMeasures :=
            { gs.casualUser.securityMeasures with emailVerification := true } }
      else
        { gs.casualUser with accountCompromised := accountCompromised }
    let tempState := { gs with casualUser := updatedUser }
    { gs with
      notifications := updatedNotifications,
      casualUser := updatedUser,
      vulnerabilityScore := calculateVulnerability tempState }

/-- The respond-to-notification handler. -/
def respondToNotification (notificationId : String) (accepted : Bool)
    (gs : GameState) : Except ApiError GameState :=
  match gs.notifications.find? (fun n => n.id == notificationId) with
  | none => .error .notFound
  | some notification => .ok (respondResult notification notificationId accepted gs)

/-! ## POST /api/passwords/save and /api/passwords/delete -/

/-- The validated body of the save-password request. -/
structure SavePasswordRequest where
  title : String
  website : Option String := none
  username : Option String := none
  password : String
  category : Option String := none
deriving Repr, DecidableEq

/-- The save-password handler.  Generated UUIDs (entry id and the one or
two log-entry ids) and the clock are parameters. -/
def savePassword (req : SavePasswordRequest) (pid lid1 lid2 : String)
    (now : Nat) (gs : GameState) : GameState :=
  let newPassword : VaultEntry :=
    { id := pid, title := req.title, website := req.website,
      username := req.username, password := req.password,
      createdAt := now, category := req.category }
  let newVault := gs.casualUser.passwordVault ++ [newPassword]
  let shouldActivateVault :=
    newVault.length ≥ 3 && !gs.casualUser.securityMeasures.passwordVault
  let activityLog :=
    gs.activityLog ++
    [⟨lid1, now, .user, "Senha salva no cofre",
      some ("\"" ++ req.title ++ "\" adicionada ao cofre de senhas")⟩] ++
    (if shouldActivateVault then
      [⟨lid2, now, .system, "Cofre de Senhas ativado",
        some "3 ou mais senhas armazenadas - bônus de segurança aplicado"⟩]
     else [])
  { gs with
    casualUser :=
      { gs.casualUser with
        passwordVault := newVault,
        securityMeasures :=
          { gs.casualUser.securityMeasures with
            passwordVault :=
              shouldActivateVault || gs.casualUser.securityMeasures.passwordVault } },
    activityLog := activityLog }

/-- The delete-password handler. -/
def deletePassword (pwid lid1 lid2 : String) (now : Nat) (gs : GameState) :
    GameState :=
  let deletedPassword := gs.casualUser.passwordVault.find? (fun p => p.id == pwid)
  let newVault := gs.casualUser.passwordVault.filter (fun p => p.id ≠ pwid)
  let shouldDeactivateVault :=
    newVault.length < 3 && gs.casualUser.securityMeasures.passwordVault
  let activityLog :=
    gs.activityLog ++
    [⟨lid1, now, .user, "Senha removida do cofre",
      some (match deletedPassword with
            | some p => "\"" ++ p.title ++ "\" removida"
            | none => "Senha removida")⟩] ++
    (if shouldDeactivateVault then
      [⟨lid2, now, .system, "Cofre de Senhas desativado",
        some "Menos de 3 senhas - bônus de segurança removido"⟩]
     else [])
  { gs with
    casualUser :=
      { gs.casualUser with
        passwordVault := newVault,
        securityMeasures :=
          { gs.casualUser.securityMeasures with
            passwordVault :=
              !shouldDeactivateVault && gs.casualUser.securityMeasures.passwordVault } },
    activityLog := activityLog }

/-! ## POST /api/notification/delete -/

/-- The delete-notification handler. -/
def deleteNotification (notificationId : String) (gs : GameState) : GameState :=
  { gs with notifications := gs.notifications.filter (fun n => n.id ≠ notificationId) }

/-! ## Spec-side definitions

The following definitions follow the WORDS of the specification (spec.md),
for comparison with the definitions translated from the source above. -/

/-- Sum of the amounts of the applicable (condition-true) entries
of a deduction table, Nat amounts. -/
def applicableSumN (ds : List (Bool × Nat)) : Nat :=
  (ds.filterMap fun p => if p.1 then some p.2 else none).sum

/-- Sum of the amounts of the applicable (condition-true) entries
of a deduction table, Int amounts. -/
def applicableSum (ds : List (Bool × Int)) : Int :=
  (ds.filterMap fun p => if p.1 then some p.2 else none).sum

/-- Spec 4.1: the scorer's sum, capped at 100, then the policy rule
clamping to 79 when any of the four character classes is missing. -/
def passwordStrengthSpec (password : String) : Nat :=
  let raw :=
    (if password.length ≥ 8 then 20 else 0) +
    (if password.length ≥ 12 then 20 else 0) +
    (if hasLowercase password then 20 else 0) +
    (if hasUppercase password then 20 else 0) +
    (if hasNumber password then 10 else 0) +
    (if hasSpecial password then 10 else 0)
  let capped := min raw 100
  let allFour :=
    hasLowercase password && hasUppercase password &&
    hasNumber password && hasSpecial password
  if !allFour && capped ≥ 80 then 79 else capped

/-- Spec 4.2: the per-measure reduction table (measure, reduction,
extra condition). -/
def vulnReductionTable (gs : GameState) : List (Bool × Nat) :=
  let measures := gs.casualUser.securityMeasures
  let config := gs.casualUser.securityConfig
  [ (measures.strongPassword, 10),
    (measures.twoFactorAuth, 15),
    (measures.emailVerification, 10),
    (measures.securityQuestions, 10),
    (measures.backupEmail, 5),
    (measures.authenticatorApp, 20),
    (measures.smsBackup && smsVerified config, 12),
    (measures.trustedDevices && trustedDeviceCount config > 0, 15),
    (measures.loginAlerts && (loginEmailAlerts config || loginSmsAlerts config), 10),
    (measures.sessionManagement, 12),
    (measures.ipWhitelist && ipWhitelistEnabled config && allowedIPCount config > 0, 18),
    (measures.passwordVault && gs.casualUser.passwordVault.length ≥ 3, 8) ]

/-- Spec 4.2: vulnerability = 100 − totalReduction, clamped to [0,100]. -/
def vulnerabilitySpec (gs : GameState) : Int :=
  max 0 (min 100 (100 - (applicableSumN (vulnReductionTable gs) : Int)))

/-- Success chance computed from a table row: base minus the applicable
deductions, clamped to [0,100]. -/
def chanceFromRow (base : Int) (ds : List (Bool × Int)) : Int :=
  max 0 (min 100 (base - applicableSum ds))

/-- Spec 4.3: base chance and deduction list of an attack id, written
EXACTLY as the spec table prints it: in the session_hijacking and
dns_spoofing rows the loginAlerts deduction carries no extra condition
(bare measure flag), unlike the other rows. -/
def attackChanceSpecLiteral (attackId : String) (gs : GameState) : Int :=
  let measures := gs.casualUser.securityMeasures
  let config := gs.casualUser.securityConfig
  let passwordStrength := calculatePasswordStrength (gs.casualUser.password.getD "")
  if attackId == "brute_force" then
    chanceFromRow 80
      [ (measures.authenticatorApp, 70),
        (measures.twoFactorAuth, 60),
        (measures.strongPassword || passwordStrength ≥ 80, 40),
        (measures.ipWhitelist && ipWhitelistEnabled config, 20),
        (measures.sessionManagement, 15) ]
  else if attackId == "phishing" then
    chanceFromRow 70
      [ (measures.authenticatorApp, 40),
        (measures.twoFactorAuth, 30),
        (measures.emailVerification, 25),
        (measures.loginAlerts && loginEmailAlerts config, 20),
        (measures.trustedDevices && trustedDeviceCount config > 0, 15) ]
  else if attackId == "social_engineering" then
    chanceFromRow 65
      [ (measures.twoFactorAuth, 25),
        (measures.securityQuestions, 20),
        (measures.loginAlerts && (loginEmailAlerts config || loginSmsAlerts config), 20) ]
  else if attackId == "keylogger" then
    chanceFromRow 60
      [ (measures.authenticatorApp, 30),
        (measures.twoFactorAuth, 25),
        (measures.sessionManagement, 15) ]
  else if attackId == "password_leak" then
    chanceFromRow 75
      [ (measures.authenticatorApp, 50),
        (measures.twoFactorAuth, 40),
        (measures.strongPassword, 20),
        (measures.smsBackup && smsVerified config, 15) ]
  else if attackId == "session_hijacking" then
    chanceFromRow 50
      [ (measures.loginAlerts, 25),
        (measures.sessionManagement, 20),
        (measures.trustedDevices && trustedDeviceCount config > 0, 15),
        (measures.authenticatorApp, 10) ]
  else if attackId == "man_in_the_middle" then
    chanceFromRow 50
      [ (measures.trustedDevices && trustedDeviceCount config > 0, 30),
        (measures.authenticatorApp, 20),
        (measures.twoFactorAuth, 10) ]
  else if attackId == "credential_stuffing" then
    chanceFromRow 50
      [ (measures.passwordVault && gs.casualUser.passwordVault.length ≥ 3, 25),
        (measures.authenticatorApp, 15),
        (measures.twoFactorAuth, 10),
        (measures.strongPassword, 5) ]
  else if attackId == "sim_swap" then
    chanceFromRow 50
      [ (measures.authenticatorApp, 40),
        (measures.twoFactorAuth, 10) ]
  else if attackId == "malware_injection" then
    chanceFromRow 50
      [ (measures.trustedDevices && trustedDeviceCount config > 0, 30),
        (measures.authenticatorApp, 20),
        (measures.sessionManagement, 15) ]
  else if attackId == "dns_spoofing" then
    chanceFromRow 50
      [ (measures.trustedDevices && trustedDeviceCount config > 0, 25),
        (measures.loginAlerts, 15),
        (measures.authenticatorApp, 10),
        (measures.emailVerification, 5) ]
  else if attackId == "zero_day_exploit" then
    chanceFromRow 50
      [ (measures.authenticatorApp, 25),
        (measures.twoFactorAuth, 20),
        (measures.ipWhitelist && ipWhitelistEnabled config && allowedIPCount config > 0, 10),
        (measures.sessionManagement, 5) ]
  else
    chanceFromRow 50 []

/-- The spec table with the loginAlerts deductions of session_hijacking and
dns_spoofing gated on an alert channel being configured (email or sms),
which is the amendment the code forces; all other rows as printed. -/
def attackChanceSpecAmended (attackId : String) (gs : GameState) : Int :=
  let measures := gs.casualUser.securityMeasures
  let config := gs.casualUser.securityConfig
  if attackId == "session_hijacking" then
    chanceFromRow 50
      [ (measures.loginAlerts && (loginEmailAlerts config || loginSmsAlerts config), 25),
        (measures.sessionManagement, 20),
        (measures.trustedDevices && trustedDeviceCount config > 0, 15),
        (measures.authenticatorApp, 10) ]
  else if attackId == "dns_spoofing" then
    chanceFromRow 50
      [ (measures.trustedDevices && trustedDeviceCount config > 0, 25),
        (measures.loginAlerts && (loginEmailAlerts config || loginSmsAlerts config), 15),
        (measures.authenticatorApp, 10),
        (measures.emailVerification, 5) ]
  else attackChanceSpecLiteral attackId gs

/-! ## Concrete fixture states -/

/-- All 12 measure flags enabled. -/
def fullMeasures : SecurityMeasures :=
  { twoFactorAuth := true, strongPassword := true, emailVerification := true,
    securityQuestions := true, backupEmail := true, authenticatorApp := true,
    smsBackup := true, trustedDevices := true, loginAlerts := true,
    sessionManagement := true, ipWhitelist := true, passwordVault := true }

/-- A complete configuration: verified SMS, one trusted device, email
alerts on, IP whitelist enabled with one IP, verified recovery email. -/
def fullConfig : SecurityConfig :=
  { recoveryEmail := some { email := some "a@b.c", verified := true },
    smsBackup := some { phoneNumber := some "1234567890", verified := true },
    trustedDevices := some { devices := [⟨"d1", "notebook", "fp", 0⟩] },
    loginAlerts := some { emailAlerts := true, smsAlerts := false, newLocationAlerts := false },
    ipWhitelist := some { enabled := true, allowedIPs := ["1.2.3.4"] } }

/-- A vault with three entries. -/
def vault3 : List VaultEntry :=
  [ { id := "p1", title := "t1", password := "x", createdAt := 0 },
    { id := "p2", title := "t2", password := "y", createdAt := 0 },
    { id := "p3", title := "t3", password := "z", createdAt := 0 } ]

/-- Fully hardened account: every measure on, every configuration
complete, a strength-100 password, three vault entries. -/
def hardenedState : GameState :=
  { casualUser :=
    { password := some "Abcdefgh1!xy", securityMeasures := fullMeasures,
      securityConfig := fullConfig, passwordVault := vault3,
      accountCompromised := false } }

/-- Fresh state with only twoFactorAuth and authenticatorApp enabled. -/
def twoMeasureState : GameState :=
  { casualUser :=
    { initialGameState.casualUser with securityMeasures :=
      { twoFactorAuth := true, authenticatorApp := true } } }

/-! ## Helper lemmas -/

lemma applicableSumN_cons (c : Bool) (a : Nat) (rest : List (Bool × Nat)) :
    applicableSumN ((c, a) :: rest) = (if c then a else 0) + applicableSumN rest := by
  cases c <;> simp [applicableSumN]

lemma applicableSumN_nil : applicableSumN [] = 0 := rfl

lemma applicableSum_cons (c : Bool) (a : Int) (rest : List (Bool × Int)) :
    applicableSum ((c, a) :: rest) = (if c then a else 0) + applicableSum rest := by
  cases c <;> simp [applicableSum]

lemma applicableSum_nil : applicableSum [] = 0 := rfl

/-! ## C1: perfect-defense short-circuit -/

/-- C1: for every attack identifier and every game state in which all 12
security-measure flags are true and the configuration-completeness check
holds, getAttackSuccessChance returns exactly 0, regardless of the attack
identifier. -/
theorem hardened_attack_chance_zero (attackId : String) (gs : GameState)
    (hm : allMeasuresActive gs = true) (hc : allConfigurationsValid gs = true) :
    getAttackSuccessChance attackId gs = 0 := by
  unfold getAttackSuccessChance
  rw [hm, hc]
  simp

/-- Witness for C1 at the concrete fully hardened state. -/
theorem hardened_attack_chance_zero_witness :
    allMeasuresActive hardenedState = true ∧
    allConfigurationsValid hardenedState = true ∧
    getAttackSuccessChance "zero_day_exploit" hardenedState = 0 :=
  ⟨by decide, by decide,
   hardened_attack_chance_zero "zero_day_exploit" hardenedState (by decide) (by decide)⟩

/-! ## C2: password strength scoring -/

/-- C2: calculatePasswordStrength computes the spec's additive score with
the 100 cap and the clamp-to-79 policy rule; consequently every password
with all four character classes and length at least 12 scores exactly 100,
and every password missing at least one class scores at most 79. -/
theorem password_strength_matches_spec :
    (∀ p, calculatePasswordStrength p = passwordStrengthSpec p) ∧
    (∀ p, hasLowercase p = true → hasUppercase p = true → hasNumber p = true →
      hasSpecial p = true → p.length ≥ 12 → calculatePasswordStrength p = 100) ∧
    (∀ p, (hasLowercase p && hasUppercase p && hasNumber p && hasSpecial p) = false →
      calculatePasswordStrength p ≤ 79) := by
  refine ⟨fun p => ?_, fun p hl hu hn hs h12 => ?_, fun p hmiss => ?_⟩
  · by_cases h8 : p.length ≥ 8 <;> by_cases h12 : p.length ≥ 12 <;>
    by_cases hl : hasLowercase p <;> by_cases hu : hasUppercase p <;>
    by_cases hn : hasNumber p <;> by_cases hs : hasSpecial p <;>
    simp [calculatePasswordStrength, passwordStrengthSpec, h8, h12, hl, hu, hn, hs]
  · have h8 : p.length ≥ 8 := by omega
    simp [calculatePasswordStrength, h8, h12, hl, hu, hn, hs]
  · by_cases h8 : p.length ≥ 8 <;> by_cases h12 : p.length ≥ 12 <;>
    by_cases hl : hasLowercase p <;> by_cases hu : hasUppercase p <;>
    by_cases hn : hasNumber p <;> by_cases hs : hasSpecial p <;>
    first
      | (simp [calculatePasswordStrength, h8, h12, hl, hu, hn, hs]; done)
      | simp [hl, hu, hn, hs] at hmiss

/-- Witness for C2 at concrete passwords. -/
theorem password_strength_matches_spec_witness :
    calculatePasswordStrength "Abcdefgh1!xy" = passwordStrengthSpec "Abcdefgh1!xy" ∧
    calculatePasswordStrength "Abcdefgh1!xy" = 100 ∧
    calculatePasswordStrength "Abcdefghijk1" ≤ 79 :=
  ⟨password_strength_matches_spec.1 "Abcdefgh1!xy",
   password_strength_matches_spec.2.1 "Abcdefgh1!xy"
     (by decide) (by decide) (by decide) (by decide) (by decide),
   password_strength_matches_spec.2.2 "Abcdefghijk1" (by decide)⟩

/-! ## C3: vulnerability aggregation -/

/-- All 12 measure flags disabled. -/
def allMeasuresOff (gs : GameState) : Bool :=
  let measures := gs.casualUser.securityMeasures
  !measures.twoFactorAuth && !measures.strongPassword &&
  !measures.emailVerification && !measures.securityQuestions &&
  !measures.backupEmail && !measures.authenticatorApp &&
  !measures.smsBackup && !measures.trustedDevices &&
  !measures.loginAlerts && !measures.sessionManagement &&
  !measures.ipWhitelist && !measures.passwordVault

/-- The extra per-measure conditions of the vulnerability table all hold
(verified SMS, a trusted device, an alert channel, IP whitelist enabled
and non-empty, vault with at least 3 entries). -/
def vulnConfigComplete (gs : GameState) : Bool :=
  let config := gs.casualUser.securityConfig
  smsVerified config &&
  decide (trustedDeviceCount config > 0) &&
  (loginEmailAlerts config || loginSmsAlerts config) &&
  ipWhitelistEnabled config &&
  decide (allowedIPCount config > 0) &&
  decide (gs.casualUser.passwordVault.length ≥ 3)

/-- C3: calculateVulnerability equals 100 minus the spec table's applicable
reductions clamped to [0,100]; it always lies in [0,100]; with all measures
off it is exactly 100; with all 12 measures on and fully configured
(total reduction 145) it is exactly 0. -/
theorem vulnerability_matches_spec :
    (∀ gs, calculateVulnerability gs = vulnerabilitySpec gs) ∧
    (∀ gs, 0 ≤ calculateVulnerability gs ∧ calculateVulnerability gs ≤ 100) ∧
    (∀ gs, allMeasuresOff gs = true → calculateVulnerability gs = 100) ∧
    (∀ gs, allMeasuresActive gs = true → vulnConfigComplete gs = true →
      calculateVulnerability gs = 0) := by
  refine ⟨fun gs => ?_, fun gs => ?_, fun gs h => ?_, fun gs hm hc => ?_⟩
  · have h : totalReduction gs = applicableSumN (vulnReductionTable gs) := by
      simp only [totalReduction, vulnReductionTable, applicableSumN_cons, applicableSumN_nil]
      omega
    simp [calculateVulnerability, vulnerabilitySpec, h]
  · unfold calculateVulnerability
    omega
  · simp only [allMeasuresOff, Bool.and_eq_true, Bool.not_eq_true'] at h
    obtain ⟨⟨⟨⟨⟨⟨⟨⟨⟨⟨⟨h1, h2⟩, h3⟩, h4⟩, h5⟩, h6⟩, h7⟩, h8⟩, h9⟩, h10⟩, h11⟩, h12⟩ := h
    simp [calculateVulnerability, totalReduction, h1, h2, h3, h4, h5, h6, h7, h8, h9, h10, h11, h12]
  · simp only [allMeasuresActive, Bool.and_eq_true] at hm
    obtain ⟨⟨⟨⟨⟨⟨⟨⟨⟨⟨⟨m1, m2⟩, m3⟩, m4⟩, m5⟩, m6⟩, m7⟩, m8⟩, m9⟩, m10⟩, m11⟩, m12⟩ := hm
    simp only [vulnConfigComplete, Bool.and_eq_true, decide_eq_true_eq] at hc
    obtain ⟨⟨⟨⟨⟨c1, c2⟩, c3⟩, c4⟩, c5⟩, c6⟩ := hc
    have h : totalReduction gs = 145 := by
      simp [totalReduction, m1, m2, m3, m4, m5, m6, m7, m8, m9, m10, m11, m12,
        c1, c2, c3, c4, c5, c6]
    simp [calculateVulnerability, h]

/-- Witness for C3 at the all-off and fully hardened states. -/
theorem vulnerability_matches_spec_witness :
    calculateVulnerability initialGameState = 100 ∧
    calculateVulnerability hardenedState = 0 :=
  ⟨vulnerability_matches_spec.2.2.1 initialGameState (by decide),
   vulnerability_matches_spec.2.2.2 hardenedState (by decide) (by decide)⟩

/-! ## C4: per-attack success-chance table -/

/-- State with only the loginAlerts measure flag on and no loginAlerts
configuration: the spec table as printed deducts 25 for session_hijacking
here, the code deducts nothing. -/
def loginAlertsFlagOnlyState : GameState :=
  { casualUser :=
    { initialGameState.casualUser with securityMeasures := { loginAlerts := true } } }

/-- C4 counterexample: at a state with the loginAlerts flag on but no alert
channel configured, getAttackSuccessChance for session_hijacking is 50
while the spec table as printed (bare loginAlerts deduction of 25) gives
25 - the claimed equality with the literal spec table fails. -/
theorem attack_chance_table_counterexample :
    (allMeasuresActive loginAlertsFlagOnlyState &&
      allConfigurationsValid loginAlertsFlagOnlyState) = false ∧
    getAttackSuccessChance "session_hijacking" loginAlertsFlagOnlyState = 50 ∧
    attackChanceSpecLiteral "session_hijacking" loginAlertsFlagOnlyState = 25 := by
  refine ⟨by decide, by decide, by decide⟩

set_option maxHeartbeats 2000000 in
/-- C4 amended: outside the perfect-defense short-circuit,
getAttackSuccessChance matches the spec table with the loginAlerts
deductions of session_hijacking and dns_spoofing additionally gated on a
configured alert channel; the brute_force scenarios of the claim hold. -/
theorem attack_chance_matches_amended_table :
    (∀ attackId gs, (allMeasuresActive gs && allConfigurationsValid gs) = false →
      getAttackSuccessChance attackId gs = attackChanceSpecAmended attackId gs) ∧
    getAttackSuccessChance "brute_force" initialGameState = 80 ∧
    getAttackSuccessChance "brute_force" twoMeasureState = 0 := by
  refine ⟨fun attackId gs h => ?_, by decide, by decide⟩
  by_cases h0 : attackId = "brute_force"
  · simp only [getAttackSuccessChance, attackChanceSpecAmended, attackChanceSpecLiteral, chanceFromRow, h0, h]
    simp [applicableSum_cons, applicableSum_nil]
    split_ifs <;> omega
  by_cases h1 : attackId = "phishing"
  · simp only [getAttackSuccessChance, attackChanceSpecAmended, attackChanceSpecLiteral, chanceFromRow, h1, h]
    simp [applicableSum_cons, applicableSum_nil]
    split_ifs <;> omega
  by_cases h2 : attackId = "social_engineering"
  · simp only [getAttackSuccessChance, attackChanceSpecAmended, attackChanceSpecLiteral, chanceFromRow, h2, h]
    simp [applicableSum_cons, applicableSum_nil]
    split_ifs <;> omega
  by_cases h3 : attackId = "keylogger"
  · simp only [getAttackSuccessChance, attackChanceSpecAmended, attackChanceSpecLiteral, chanceFromRow, h3, h]
    simp [applicableSum_cons, applicableSum_nil]
    split_ifs <;> omega
  by_cases h4 : attackId = "password_leak"
  · simp only [getAttackSuccessChance, attackChanceSpecAmended, attackChanceSpecLiteral, chanceFromRow, h4, h]
    simp [applicableSum_cons, applicableSum_nil]
    split_ifs <;> omega
  by_cases h5 : attackId = "session_hijacking"
  · simp only [getAttackSuccessChance, attackChanceSpecAmended, attackChanceSpecLiteral, chanceFromRow, h5, h]
    simp [applicableSum_cons, applicableSum_nil]
    split_ifs <;> omega
  by_cases h6 : attackId = "man_in_the_middle"
  · simp only [getAttackSuccessChance, attackChanceSpecAmended, attackChanceSpecLiteral, chanceFromRow, h6, h]
    simp [applicableSum_cons, applicableSum_nil]
    split_ifs <;> omega
  by_cases h7 : attackId = "credential_stuffing"
  · simp only [getAttackSuccessChance, attackChanceSpecAmended, attackChanceSpecLiteral, chanceFromRow, h7, h]
    simp [applicableSum_cons, applicableSum_nil]
    split_ifs <;> omega
  by_cases h8 : attackId = "sim_swap"
  · simp only [getAttackSuccessChance, attackChanceSpecAmended, attackChanceSpecLiteral, chanceFromRow, h8, h]
    simp [applicableSum_cons, applicableSum_nil]
    split_ifs <;> omega
  by_cases h9 : attackId = "malware_injection"
  · simp only [getAttackSuccessChance, attackChanceSpecAmended, attackChanceSpecLiteral, chanceFromRow, h9, h]
    simp [applicableSum_cons, applicableSum_nil]
    split_ifs <;> omega
  by_cases h10 : attackId = "dns_spoofing"
  · simp only [getAttackSuccessChance, attackChanceSpecAmended, attackChanceSpecLiteral, chanceFromRow, h10, h]
    simp [applicableSum_cons, applicableSum_nil]
    split_ifs <;> omega
  by_cases h11 : attackId = "zero_day_exploit"
  · simp only [getAttackSuccessChance, attackChanceSpecAmended, attackChanceSpecLiteral, chanceFromRow, h11, h]
    simp [applicableSum_cons, applicableSum_nil]
    split_ifs <;> omega
  · simp only [getAttackSuccessChance, attackChanceSpecAmended, attackChanceSpecLiteral, chanceFromRow, h]
    simp [applicableSum_cons, applicableSum_nil, h0, h1, h2, h3, h4, h5, h6, h7, h8, h9, h10, h11]

/-- Witness for C4 at a concrete non-hardened state. -/
theorem attack_chance_matches_amended_table_witness :
    getAttackSuccessChance "session_hijacking" loginAlertsFlagOnlyState
      = attackChanceSpecAmended "session_hijacking" loginAlertsFlagOnlyState :=
  attack_chance_matches_amended_table.1 "session_hijacking" loginAlertsFlagOnlyState (by decide)

/-! ## Inversion helpers for the Except-returning handlers -/

lemma executeAttack_ok_elim {attackId : String} {now : Nat} {roll : Int}
    {nid lid : String} {gs s : GameState}
    (h : executeAttack attackId now roll nid lid gs = .ok s) :
    ∃ attack, attackTypes.find? (fun a => a.id == attackId) = some attack ∧
      s = executeAttackResult attack attackId now roll nid lid gs := by
  unfold executeAttack at h
  cases hf : attackTypes.find? (fun a => a.id == attackId) with
  | none => rw [hf] at h; cases h
  | some attack =>
    rw [hf] at h
    refine ⟨attack, rfl, ?_⟩
    cases hcd : gs.hacker.cooldowns.lookup attackId with
    | none => rw [hcd] at h; cases h; rfl
    | some t =>
      rw [hcd] at h
      dsimp only at h
      by_cases hn : t > now
      · rw [if_pos hn] at h; cases h
      · rw [if_neg hn] at h; cases h; rfl

lemma respondToNotification_ok_elim {nid : String} {acc : Bool} {gs s : GameState}
    (h : respondToNotification nid acc gs = .ok s) :
    ∃ n, gs.notifications.find? (fun x => x.id == nid) = some n ∧
      s = respondResult n nid acc gs := by
  unfold respondToNotification at h
  cases hf : gs.notifications.find? (fun x => x.id == nid) with
  | none => rw [hf] at h; cases h
  | some n => rw [hf] at h; cases h; exact ⟨n, rfl, rfl⟩

/-! ## C5: attack on cooldown -/

/-- State with a pending cooldown entry under an id that is not one of the
12 attack types. -/
def bogusCooldownState : GameState :=
  { initialGameState with hacker :=
    { initialGameState.hacker with cooldowns := [("bogus", 10)] } }

/-- C5 counterexample: for an attack identifier outside the fixed attack
list, even with a future cooldown entry for it (entry 10, now 5), the
execute-attack operation returns the not-found error, not the cooldown
precondition error the claim requires for every attack identifier. -/
theorem cooldown_error_counterexample :
    bogusCooldownState.hacker.cooldowns.lookup "bogus" = some 10 ∧
    (10 : Nat) > 5 ∧
    executeAttack "bogus" 5 0 "n" "l" bogusCooldownState = .error .notFound ∧
    ApiError.notFound ≠ ApiError.onCooldown := by
  refine ⟨by decide, by decide, rfl, by decide⟩

/-- C5 amended: for every KNOWN attack identifier (one of the 12 attack
types) whose cooldown entry is strictly in the future, execute-attack
returns the cooldown precondition error and the persisted state is exactly
the prior state (all components unchanged). -/
theorem cooldown_rejects_unchanged (attackId : String) (now : Nat) (roll : Int)
    (nid lid : String) (gs : GameState) (t : Nat) (attack : AttackType)
    (hfind : attackTypes.find? (fun a => a.id == attackId) = some attack)
    (hcd : gs.hacker.cooldowns.lookup attackId = some t)
    (hnow : t > now) :
    executeAttack attackId now roll nid lid gs = .error .onCooldown ∧
    runExecuteAttack attackId now roll nid lid gs = gs := by
  have h1 : executeAttack attackId now roll nid lid gs = .error .onCooldown := by
    unfold executeAttack
    rw [hfind, hcd]
    exact if_pos hnow
  refine ⟨h1, ?_⟩
  unfold runExecuteAttack
  rw [h1]

/-- State with a pending brute_force cooldown. -/
def bruteCooldownState : GameState :=
  { initialGameState with hacker :=
    { initialGameState.hacker with cooldowns := [("brute_force", 10)] } }

/-- Witness for the amended C5 at a concrete known attack on cooldown. -/
theorem cooldown_rejects_unchanged_witness :
    executeAttack "brute_force" 5 0 "n" "l" bruteCooldownState = .error .onCooldown ∧
    runExecuteAttack "brute_force" 5 0 "n" "l" bruteCooldownState = bruteCooldownState :=
  cooldown_rejects_unchanged "brute_force" 5 0 "n" "l" bruteCooldownState 10
    ⟨"brute_force", "Força Bruta", 30000⟩ (by decide) (by decide) (by decide)

/-! ## C6: vulnerability score recomputation -/

/-- A vault with two entries. -/
def vault2 : List VaultEntry :=
  [ { id := "p1", title := "t1", password := "x", createdAt := 0 },
    { id := "p2", title := "t2", password := "y", createdAt := 0 } ]

/-- Consistent state with two vault entries and the passwordVault
measure off (stored score 100 equals calculateVulnerability). -/
def twoVaultState : GameState :=
  { casualUser := { initialGameState.casualUser with passwordVault := vault2 } }

/-- C6 counterexample: saving a third vault entry auto-activates the
passwordVault measure, which changes calculateVulnerability to 92, but the
save-password operation does not recompute the stored vulnerabilityScore,
leaving it stale at 100. -/
theorem vulnerability_stale_counterexample :
    twoVaultState.vulnerabilityScore = calculateVulnerability twoVaultState ∧
    (savePassword ⟨"t3", none, none, "z", none⟩ "p3" "l1" "l2" 7 twoVaultState).vulnerabilityScore = 100 ∧
    calculateVulnerability (savePassword ⟨"t3", none, none, "z", none⟩ "p3" "l1" "l2" 7 twoVaultState) = 92 := by
  refine ⟨by decide, by decide, by decide⟩

/-- C6 amended: the update-security and respond-to-notification operations
recompute the stored vulnerabilityScore from the resulting state; the
execute-attack operation changes neither the stored score nor
calculateVulnerability; the save-password and delete-password operations
do NOT recompute the stored score (it can go stale exactly when the vault
crossing toggles the passwordVault measure). -/
theorem vulnerability_recompute_amended :
    (∀ mid e lid now gs,
      (updateSecurity mid e lid now gs).vulnerabilityScore
        = calculateVulnerability (updateSecurity mid e lid now gs)) ∧
    (∀ nid acc gs s, respondToNotification nid acc gs = .ok s →
      s.vulnerabilityScore = calculateVulnerability s) ∧
    (∀ attackId now roll nid lid gs s,
      executeAttack attackId now roll nid lid gs = .ok s →
      s.vulnerabilityScore = gs.vulnerabilityScore ∧
      calculateVulnerability s = calculateVulnerability gs) ∧
    (∀ req pid l1 l2 now gs,
      (savePassword req pid l1 l2 now gs).vulnerabilityScore = gs.vulnerabilityScore) ∧
    (∀ pwid l1 l2 now gs,
      (deletePassword pwid l1 l2 now gs).vulnerabilityScore = gs.vulnerabilityScore) := by
  refine ⟨fun mid e lid now gs => rfl,
          fun nid acc gs s h => ?_,
          fun attackId now roll nid lid gs s h => ?_,
          fun req pid l1 l2 now gs => rfl,
          fun pwid l1 l2 now gs => rfl⟩
  · obtain ⟨n, hf, hs⟩ := respondToNotification_ok_elim h
    subst hs
    rfl
  · obtain ⟨attack, hf, hs⟩ := executeAttack_ok_elim h
    subst hs
    exact ⟨rfl, rfl⟩

/-- A pending confirm_2fa confirmation notification. -/
def confirm2faNotification : Notification :=
  { id := "n1", ntype := .twofa_confirm,
    title := "Ativar Autenticação de Dois Fatores",
    message := "Confirme para ativar.",
    isActive := true, requiresAction := true,
    ctaLabel := some "Confirmar", ctaType := some .confirm_2fa }

/-- Fresh state with a pending confirm_2fa notification. -/
def pending2faState : GameState :=
  { initialGameState with notifications := [confirm2faNotification] }

/-- Witness for the amended C6 at concrete operations. -/
theorem vulnerability_recompute_amended_witness :
    (updateSecurity .twoFactorAuth true "l" 0 initialGameState).vulnerabilityScore
      = calculateVulnerability (updateSecurity .twoFactorAuth true "l" 0 initialGameState) ∧
    (respondResult confirm2faNotification "n1" true pending2faState).vulnerabilityScore
      = calculateVulnerability (respondResult confirm2faNotification "n1" true pending2faState) ∧
    (savePassword ⟨"t3", none, none, "z", none⟩ "p3" "l1" "l2" 7 twoVaultState).vulnerabilityScore
      = twoVaultState.vulnerabilityScore :=
  ⟨vulnerability_recompute_amended.1 .twoFactorAuth true "l" 0 initialGameState,
   vulnerability_recompute_amended.2.1 "n1" true pending2faState
     (respondResult confirm2faNotification "n1" true pending2faState)
     (by with_unfolding_all rfl),
   vulnerability_recompute_amended.2.2.2.1 ⟨"t3", none, none, "z", none⟩ "p3" "l1" "l2" 7 twoVaultState⟩

/-! ## C7: activation paths of the confirmation-gated measures -/

/-- C7 counterexample: the generic update-security operation (which is not
the respond-to-notification operation and involves no confirmation
notification) flips twoFactorAuth from false to true directly. -/
theorem confirmation_only_path_counterexample :
    initialGameState.casualUser.securityMeasures.twoFactorAuth = false ∧
    (updateSecurity .twoFactorAuth true "l" 0 initialGameState).casualUser.securityMeasures.twoFactorAuth = true := by
  exact ⟨rfl, rfl⟩

/-- C7 amended: responding accepted=true to a notification with ctaType
confirm_2fa / confirm_email_verification / confirm_email turns on
twoFactorAuth / emailVerification / backupEmail respectively (the last
only when a recoveryEmail configuration exists), and the respond operation
changes these three flags in no other way; execute-attack, save-password,
delete-password and delete-notification never change them; but the generic
update-security toggle can also set each of the three flags directly. -/
theorem confirmation_flag_paths :
    (∀ nid acc gs s n, gs.notifications.find? (fun x => x.id == nid) = some n →
      respondToNotification nid acc gs = .ok s →
      s.casualUser.securityMeasures.twoFactorAuth
        = (gs.casualUser.securityMeasures.twoFactorAuth
            || (acc && n.ctaType == some CtaType.confirm_2fa)) ∧
      s.casualUser.securityMeasures.emailVerification
        = (gs.casualUser.securityMeasures.emailVerification
            || (acc && n.ctaType == some CtaType.confirm_email_verification)) ∧
      s.casualUser.securityMeasures.backupEmail
        = (gs.casualUser.securityMeasures.backupEmail
            || (acc && n.ctaType == some CtaType.confirm_email
                && gs.casualUser.securityConfig.recoveryEmail.isSome))) ∧
    (∀ attackId now roll nid lid gs s, executeAttack attackId now roll nid lid gs = .ok s →
      s.casualUser.securityMeasures = gs.casualUser.securityMeasures) ∧
    (∀ req pid l1 l2 now gs,
      (savePassword req pid l1 l2 now gs).casualUser.securityMeasures.twoFactorAuth
        = gs.casualUser.securityMeasures.twoFactorAuth ∧
      (savePassword req pid l1 l2 now gs).casualUser.securityMeasures.emailVerification
        = gs.casualUser.securityMeasures.emailVerification ∧
      (savePassword req pid l1 l2 now gs).casualUser.securityMeasures.backupEmail
        = gs.casualUser.securityMeasures.backupEmail) ∧
    (∀ pwid l1 l2 now gs,
      (deletePassword pwid l1 l2 now gs).casualUser.securityMeasures.twoFactorAuth
        = gs.casualUser.securityMeasures.twoFactorAuth ∧
      (deletePassword pwid l1 l2 now gs).casualUser.securityMeasures.emailVerification
        = gs.casualUser.securityMeasures.emailVerification ∧
      (deletePassword pwid l1 l2 now gs).casualUser.securityMeasures.backupEmail
        = gs.casualUser.securityMeasures.backupEmail) ∧
    (∀ nid gs, (deleteNotification nid gs).casualUser = gs.casualUser) ∧
    (∀ e lid now gs,
      (updateSecurity .twoFactorAuth e lid now gs).casualUser.securityMeasures.twoFactorAuth = e ∧
      (updateSecurity .emailVerification e lid now gs).casualUser.securityMeasures.emailVerification = e ∧
      (updateSecurity .backupEmail e lid now gs).casualUser.securityMeasures.backupEmail = e) := by
  refine ⟨fun nid acc gs s n hf hresp => ?_,
          fun attackId now roll nid lid gs s h => ?_,
          fun req pid l1 l2 now gs => ⟨rfl, rfl, rfl⟩,
          fun pwid l1 l2 now gs => ⟨rfl, rfl, rfl⟩,
          fun nid gs => rfl,
          fun e lid now gs => ⟨rfl, rfl, rfl⟩⟩
  · obtain ⟨n2, hf2, hs⟩ := respondToNotification_ok_elim hresp
    rw [hf] at hf2
    injection hf2 with he
    subst he
    subst hs
    cases acc with
    | false => simp [respondResult]
    | true =>
      cases hc : n.ctaType with
      | none => simp [respondResult, hc]
      | some cta =>
        cases cta with
        | phishing_learn_more => simp [respondResult, hc]
        | confirm_2fa => simp [respondResult, hc]
        | confirm_email_verification => simp [respondResult, hc]
        | confirm_email =>
          cases hre : gs.casualUser.securityConfig.recoveryEmail with
          | none => simp [respondResult, hc, hre]
          | some re => simp [respondResult, hc, hre]
  · obtain ⟨attack, hfind, hs⟩ := executeAttack_ok_elim h
    subst hs
    rfl

/-- Witness for the amended C7 at a concrete respond operation. -/
theorem confirmation_flag_paths_witness :
    (respondResult confirm2faNotification "n1" true pending2faState).casualUser.securityMeasures.twoFactorAuth
      = (pending2faState.casualUser.securityMeasures.twoFactorAuth
          || (true && confirm2faNotification.ctaType == some CtaType.confirm_2fa)) :=
  (confirmation_flag_paths.1 "n1" true pending2faState
    (respondResult confirm2faNotification "n1" true pending2faState)
    confirm2faNotification (by decide) rfl).1

/-! ## C8: password-vault hysteresis -/

/-- Number of system-actor vault-activation entries in a log segment. -/
def countVaultActivated (l : List ActivityLogEntry) : Nat :=
  l.countP fun e => e.actor == Actor.system && e.action == "Cofre de Senhas ativado"

/-- Number of system-actor vault-deactivation entries in a log segment. -/
def countVaultDeactivated (l : List ActivityLogEntry) : Nat :=
  l.countP fun e => e.actor == Actor.system && e.action == "Cofre de Senhas desativado"

/-- Number of system-actor entries in a log segment. -/
def countSystemEntries (l : List ActivityLogEntry) : Nat :=
  l.countP fun e => e.actor == Actor.system

/-- C8: saving an entry that brings the vault from 2 to 3 entries while the
passwordVault measure is off turns the measure on and appends exactly one
system-actor activation entry (after the user-actor save entry); deleting
an entry that brings the vault from 3 to 2 entries while the measure is on
turns it off and appends exactly one system-actor deactivation entry. -/
theorem vault_hysteresis :
    (∀ req pid l1 l2 now gs,
      gs.casualUser.passwordVault.length = 2 →
      gs.casualUser.securityMeasures.passwordVault = false →
      (savePassword req pid l1 l2 now gs).casualUser.securityMeasures.passwordVault = true ∧
      (savePassword req pid l1 l2 now gs).activityLog.length = gs.activityLog.length + 2 ∧
      countSystemEntries ((savePassword req pid l1 l2 now gs).activityLog.drop gs.activityLog.length) = 1 ∧
      countVaultActivated ((savePassword req pid l1 l2 now gs).activityLog.drop gs.activityLog.length) = 1) ∧
    (∀ pwid l1 l2 now gs,
      gs.casualUser.passwordVault.length = 3 →
      gs.casualUser.securityMeasures.passwordVault = true →
      (gs.casualUser.passwordVault.filter (fun p => p.id ≠ pwid)).length = 2 →
      (deletePassword pwid l1 l2 now gs).casualUser.securityMeasures.passwordVault = false ∧
      (deletePassword pwid l1 l2 now gs).activityLog.length = gs.activityLog.length + 2 ∧
      countSystemEntries ((deletePassword pwid l1 l2 now gs).activityLog.drop gs.activityLog.length) = 1 ∧
      countVaultDeactivated ((deletePassword pwid l1 l2 now gs).activityLog.drop gs.activityLog.length) = 1) := by
  constructor
  · intro req pid l1 l2 now gs h2 hm
    simp [savePassword, hm, h2, countSystemEntries, countVaultActivated,
      List.append_assoc, List.drop_left']
  · intro pwid l1 l2 now gs h3 hm hf
    simp only [ne_eq, decide_not] at hf
    simp [deletePassword, hm, hf, countSystemEntries, countVaultDeactivated,
      List.append_assoc, List.drop_left']

/-- Consistent state with three vault entries and passwordVault on. -/
def threeVaultState : GameState :=
  { casualUser :=
    { initialGameState.casualUser with
      passwordVault := vault3,
      securityMeasures := { passwordVault := true } } }

/-- Witness for C8: adding a third entry to `twoVaultState` activates the
vault measure; deleting entry p3 from `threeVaultState` deactivates it. -/
theorem vault_hysteresis_witness :
    (savePassword ⟨"t3", none, none, "z", none⟩ "p3" "l1" "l2" 7 twoVaultState).casualUser.securityMeasures.passwordVault = true ∧
    countVaultActivated ((savePassword ⟨"t3", none, none, "z", none⟩ "p3" "l1" "l2" 7 twoVaultState).activityLog.drop twoVaultState.activityLog.length) = 1 ∧
    (deletePassword "p3" "l1" "l2" 7 threeVaultState).casualUser.securityMeasures.passwordVault = false ∧
    countVaultDeactivated ((deletePassword "p3" "l1" "l2" 7 threeVaultState).activityLog.drop threeVaultState.activityLog.length) = 1 :=
  ⟨(vault_hysteresis.1 ⟨"t3", none, none, "z", none⟩ "p3" "l1" "l2" 7 twoVaultState (by decide) (by decide)).1,
   (vault_hysteresis.1 ⟨"t3", none, none, "z", none⟩ "p3" "l1" "l2" 7 twoVaultState (by decide) (by decide)).2.2.2,
   (vault_hysteresis.2 "p3" "l1" "l2" 7 threeVaultState (by decide) (by decide) (by decide)).1,
   (vault_hysteresis.2 "p3" "l1" "l2" 7 threeVaultState (by decide) (by decide) (by decide)).2.2.2⟩

/-! ## C9: responding to a confirm_2fa notification -/

/-- State with an active confirm_2fa notification while twoFactorAuth is
already on and the stored score (85) is consistent with
calculateVulnerability. -/
def twoFaAlreadyOnState : GameState :=
  { initialGameState with
    casualUser := { initialGameState.casualUser with
      securityMeasures := { twoFactorAuth := true } },
    notifications := [confirm2faNotification],
    vulnerabilityScore := 85 }

/-- C9 counterexample: responding accepted=true to an active confirm_2fa
notification in a state whose twoFactorAuth flag is already on leaves the
vulnerability score at 85, which is not 15 less than its prior value 85. -/
theorem respond_2fa_drop_counterexample :
    twoFaAlreadyOnState.vulnerabilityScore = calculateVulnerability twoFaAlreadyOnState ∧
    confirm2faNotification.isActive = true ∧
    confirm2faNotification.ctaType = some CtaType.confirm_2fa ∧
    (respondToNotification "n1" true twoFaAlreadyOnState).map (fun s => s.vulnerabilityScore) = .ok 85 ∧
    (85 : Int) ≠ twoFaAlreadyOnState.vulnerabilityScore - 15 := by
  refine ⟨by decide, by decide, by decide, rfl, by decide⟩

lemma totalReduction_set_2fa (gs : GameState) (A : Bool)
    (h : gs.casualUser.securityMeasures.twoFactorAuth = false) :
    totalReduction { gs with casualUser :=
      { gs.casualUser with
        accountCompromised := A,
        securityMeasures := { gs.casualUser.securityMeasures with twoFactorAuth := true } } }
    = totalReduction gs + 15 := by
  simp only [totalReduction, h]
  simp
  omega

/-- C9 amended: responding accepted=true to a found confirm_2fa
notification turns twoFactorAuth on, deactivates that notification and
records userFellFor=true; provided twoFactorAuth was previously off, the
stored score was consistent, and the prior total reduction is at most 85
(so the 0-clamp cannot bite), the vulnerability score drops by exactly 15. -/
theorem respond_2fa_effects (nid : String) (gs : GameState) (n : Notification)
    (hf : gs.notifications.find? (fun x => x.id == nid) = some n)
    (hcta : n.ctaType = some CtaType.confirm_2fa)
    (h2fa : gs.casualUser.securityMeasures.twoFactorAuth = false)
    (hcons : gs.vulnerabilityScore = calculateVulnerability gs)
    (hbound : totalReduction gs ≤ 85) :
    respondToNotification nid true gs = .ok (respondResult n nid true gs) ∧
    (respondResult n nid true gs).casualUser.securityMeasures.twoFactorAuth = true ∧
    (∀ m ∈ (respondResult n nid true gs).notifications, m.id = nid →
      m.isActive = false ∧ m.userFellFor = some true) ∧
    (respondResult n nid true gs).vulnerabilityScore = gs.vulnerabilityScore - 15 := by
  refine ⟨?_, ?_, ?_, ?_⟩
  · unfold respondToNotification
    rw [hf]
  · simp [respondResult, hcta]
  · intro m hm hid
    simp only [respondResult, List.mem_map] at hm
    obtain ⟨x, hx, hmx⟩ := hm
    by_cases hxid : (x.id == nid) = true
    · rw [if_pos hxid] at hmx
      subst hmx
      exact ⟨rfl, rfl⟩
    · rw [if_neg hxid] at hmx
      subst hmx
      exact absurd (by simp [hid]) hxid
  · have hR : ∀ A, totalReduction { gs with casualUser :=
      { gs.casualUser with
        accountCompromised := A,
        securityMeasures := { gs.casualUser.securityMeasures with twoFactorAuth := true } } }
        = totalReduction gs + 15 := fun A => totalReduction_set_2fa gs A h2fa
    simp [respondResult, hcta, calculateVulnerability, hR]
    simp [calculateVulnerability] at hcons
    omega

/-- Witness for the amended C9 at the fresh state with a pending
confirm_2fa notification. -/
theorem respond_2fa_effects_witness :
    respondToNotification "n1" true pending2faState
      = .ok (respondResult confirm2faNotification "n1" true pending2faState) ∧
    (respondResult confirm2faNotification "n1" true pending2faState).casualUser.securityMeasures.twoFactorAuth = true ∧
    (∀ m ∈ (respondResult confirm2faNotification "n1" true pending2faState).notifications,
      m.id = "n1" → m.isActive = false ∧ m.userFellFor = some true) ∧
    (respondResult confirm2faNotification "n1" true pending2faState).vulnerabilityScore
      = pending2faState.vulnerabilityScore - 15 :=
  respond_2fa_effects "n1" pending2faState confirm2faNotification
    (by decide) (by decide) (by decide) (by decide) (by decide)

/-! ## C10: attack counters invariant -/

/-- States reachable from the initial state by the modeled engine
operations (update-security, execute-attack, respond-to-notification,
save-password, delete-password, delete-notification, game reset). -/
inductive Reachable : GameState → Prop where
  | init : Reachable initialGameState
  | update (mid : MeasureId) (e : Bool) (lid : String) (now : Nat) {gs : GameState} :
      Reachable gs → Reachable (updateSecurity mid e lid now gs)
  | attack (attackId : String) (now : Nat) (roll : Int) (nid lid : String)
      {gs s : GameState} : Reachable gs →
      executeAttack attackId now roll nid lid gs = .ok s → Reachable s
  | respond (nid : String) (acc : Bool) {gs s : GameState} : Reachable gs →
      respondToNotification nid acc gs = .ok s → Reachable s
  | save (req : SavePasswordRequest) (pid l1 l2 : String) (now : Nat) {gs : GameState} :
      Reachable gs → Reachable (savePassword req pid l1 l2 now gs)
  | remove (pwid l1 l2 : String) (now : Nat) {gs : GameState} :
      Reachable gs → Reachable (deletePassword pwid l1 l2 now gs)
  | removeNotification (nid : String) {gs : GameState} :
      Reachable gs → Reachable (deleteNotification nid gs)
  | reset {gs : GameState} : Reachable gs → Reachable initialGameState

/-- C10: in every reachable state attacksSuccessful is at most
attacksAttempted; both counters start at 0; a successful execute-attack
increments attacksAttempted by exactly 1 and attacksSuccessful by 1
exactly when the roll beats the success chance; and no other modeled
operation touches the hacker sub-state. -/
theorem attack_counters_invariant :
    (∀ gs, Reachable gs → gs.hacker.attacksSuccessful ≤ gs.hacker.attacksAttempted) ∧
    initialGameState.hacker.attacksAttempted = 0 ∧
    initialGameState.hacker.attacksSuccessful = 0 ∧
    (∀ attackId now roll nid lid gs s,
      executeAttack attackId now roll nid lid gs = .ok s →
      s.hacker.attacksAttempted = gs.hacker.attacksAttempted + 1 ∧
      s.hacker.attacksSuccessful =
        (if roll < getAttackSuccessChance attackId gs
         then gs.hacker.attacksSuccessful + 1 else gs.hacker.attacksSuccessful)) ∧
    (∀ mid e lid now gs, (updateSecurity mid e lid now gs).hacker = gs.hacker) ∧
    (∀ nid acc gs s, respondToNotification nid acc gs = .ok s → s.hacker = gs.hacker) ∧
    (∀ req pid l1 l2 now gs, (savePassword req pid l1 l2 now gs).hacker = gs.hacker) ∧
    (∀ pwid l1 l2 now gs, (deletePassword pwid l1 l2 now gs).hacker = gs.hacker) ∧
    (∀ nid gs, (deleteNotification nid gs).hacker = gs.hacker) := by
  have hcount : ∀ attackId now roll nid lid gs s,
      executeAttack attackId now roll nid lid gs = .ok s →
      s.hacker.attacksAttempted = gs.hacker.attacksAttempted + 1 ∧
      s.hacker.attacksSuccessful =
        (if roll < getAttackSuccessChance attackId gs
         then gs.hacker.attacksSuccessful + 1 else gs.hacker.attacksSuccessful) := by
    intro attackId now roll nid lid gs s h
    obtain ⟨attack, hfind, hs⟩ := executeAttack_ok_elim h
    subst hs
    exact ⟨rfl, rfl⟩
  have hresp : ∀ nid acc gs s, respondToNotification nid acc gs = .ok s →
      s.hacker = gs.hacker := by
    intro nid acc gs s h
    obtain ⟨n, hf, hs⟩ := respondToNotification_ok_elim h
    subst hs
    rfl
  have hupd : ∀ mid e lid now gs, (updateSecurity mid e lid now gs).hacker = gs.hacker :=
    fun _ _ _ _ _ => rfl
  have hsave : ∀ req pid l1 l2 now gs, (savePassword req pid l1 l2 now gs).hacker = gs.hacker :=
    fun _ _ _ _ _ _ => rfl
  have hdel : ∀ pwid l1 l2 now gs, (deletePassword pwid l1 l2 now gs).hacker = gs.hacker :=
    fun _ _ _ _ _ => rfl
  have hdeln : ∀ nid gs, (deleteNotification nid gs).hacker = gs.hacker :=
    fun _ _ => rfl
  refine ⟨?_, rfl, rfl, hcount, hupd, hresp, hsave, hdel, hdeln⟩
  intro gs hr
  induction hr with
  | init => exact Nat.le_refl 0
  | update mid e lid now hr ih => rw [hupd]; exact ih
  | attack attackId now roll nid lid hr heq ih =>
      obtain ⟨h1, h2⟩ := hcount _ _ _ _ _ _ _ heq
      rw [h1, h2]
      split <;> omega
  | respond nid acc hr heq ih => rw [hresp _ _ _ _ heq]; exact ih
  | save req pid l1 l2 now hr ih => rw [hsave]; exact ih
  | remove pwid l1 l2 now hr ih => rw [hdel]; exact ih
  | removeNotification nid hr ih => rw [hdeln]; exact ih
  | reset hr ih => exact Nat.le_refl 0

/-- Witness for C10 at the initial state. -/
theorem attack_counters_invariant_witness :
    initialGameState.hacker.attacksSuccessful ≤ initialGameState.hacker.attacksAttempted :=
  attack_counters_invariant.1 initialGameState Reachable.init

end GameSecurity
